import Mathlib

/-!
Shallow embedding of `src/mynteye/internal/camera_p.cc` (class `CameraPrivate`,
the session coordinator of the MYNT-EYE-D SDK core).

The coordinator's mutable state (its own fields plus the observable state of
its collaborators `Device`, `Channels`, `Streams`, `Motions`) is modelled as a
`State` record, and each public operation as an explicit state-passing
function that additionally returns the list of collaborator calls it performed
(`Event`s), so that claims about side effects ("no transport-open is invoked",
"the inertial callback is registered", call ordering) are statable.

The collaborators `Channels`, `Streams`, `Motions`, `Device` are code of this
repository that is not under `src/`; their observable behaviour is modelled
from the spec where noted (doc comments starting `Modelled from the spec:`).
Fixed device-environment facts (channel availability, the outcome of the
combined flash read, the outcome of a transport open) are carried as immutable
`State` fields or explicit boolean inputs.
-/

/-- Error codes returned by `CameraPrivate::Open` (from `mynteye` `ErrorCode`):
`SUCCESS`, the generic `ERROR_FAILURE`, and the open-specific
`ERROR_CAMERA_OPEN_FAILED`. -/
inductive ErrorCode where
  | SUCCESS
  | ERROR_FAILURE
  | ERROR_CAMERA_OPEN_FAILED
deriving DecidableEq, Repr

/-- Stream/image kinds selectable by `EnableStreamData` (`ImageType`). -/
inductive ImageType where
  | IMAGE_LEFT_COLOR
  | IMAGE_RIGHT_COLOR
  | IMAGE_DEPTH
deriving DecidableEq, Repr

/-- Observable collaborator calls performed by the coordinator's operations.
`startDataTracking` marks entry into `CameraPrivate::StartDataTracking`
itself; the others are calls on the channel, stream, and transport
collaborators. -/
inductive Event where
  | transportOpen
  | transportClose
  | onCameraOpen
  | onCameraClose
  | setImuDataCallback
  | setImgInfoCallback
  | startHidTracking
  | stopHidTracking
  | startDataTracking
deriving DecidableEq, Repr

/-- Field tags accepted by `CameraPrivate::GetDescriptor` (`Descriptor` enum),
plus `unrecognized` standing for any out-of-range enum value that reaches the
`default:` branch of the switch. -/
inductive Descriptor where
  | DEVICE_NAME
  | SERIAL_NUMBER
  | FIRMWARE_VERSION
  | HARDWARE_VERSION
  | SPEC_VERSION
  | LENS_TYPE
  | IMU_TYPE
  | NOMINAL_BASELINE
  | unrecognized
deriving DecidableEq, Repr

/-- Modelled from the spec: `device::Descriptors`, the device-identity record
read from flash (§3 DeviceDescriptors). The version/type fields are held by
their `to_string` rendering, since `GetDescriptor` only ever exposes them as
strings; `nominal_baseline` is the numeric field rendered with
`std::to_string`. -/
structure Descriptors where
  name : String
  serial_number : String
  firmware_version : String
  hardware_version : String
  spec_version : String
  lens_type : String
  imu_type : String
  nominal_baseline : Nat
deriving DecidableEq, Repr

/-- The value-initialized `device::Descriptors` produced by
`std::make_shared<device::Descriptors>()` before the flash read fills it. -/
def Descriptors.empty : Descriptors :=
  { name := "", serial_number := "", firmware_version := "",
    hardware_version := "", spec_version := "", lens_type := "",
    imu_type := "", nominal_baseline := 0 }

/-- Modelled from the spec: `Channels::imu_params_t`, the raw inertial
calibration part of the combined flash read — an `ok` flag plus accelerometer,
gyroscope, and left-to-imu extrinsic records, which this layer passes through
unchanged (§4.2), so their contents are opaque payloads here. -/
structure ImuParams where
  ok : Bool
  in_accel : Int
  in_gyro : Int
  ex_left_to_imu : Int
deriving DecidableEq, Repr

/-- Raw per-stream-mode calibration blob (`CameraCalibration`) as consumed by
`GetStreamIntrinsics`: combined stereo image size, the two row-major 3x3
camera matrices, and the two distortion-coefficient vectors. Matrix and
coefficient entries are modelled as `Int` values; only their copying matters
here. -/
structure CameraCalibration where
  InImgWidth : Nat
  InImgHeight : Nat
  CamMat1 : List Int
  CamDist1 : List Int
  CamMat2 : List Int
  CamDist2 : List Int
deriving DecidableEq, Repr

/-- One lens's structured intrinsics (`CameraIntrinsics`): per-lens image
size, focal lengths, principal point, and the 5 copied distortion
coefficients. -/
structure CameraIntrinsics where
  width : Nat
  height : Nat
  fx : Int
  fy : Int
  cx : Int
  cy : Int
  coeffs : List Int
deriving DecidableEq, Repr

/-- Structured left/right intrinsics (`StreamIntrinsics`). -/
structure StreamIntrinsics where
  left : CameraIntrinsics
  right : CameraIntrinsics
deriving DecidableEq, Repr

/-- The coordinator's observable state: fixed device-environment facts
(`chanAvailable` = `Channels::IsAvaliable`, `hidAvailable` =
`Channels::IsHidAvaliable`, `getFilesResult` = the outcome of
`Channels::GetFiles`, `none` meaning the read reports failure), the transport
open flag, the descriptor/motion caches, the feature-toggle state held by
`Streams`/`Motions`, and the channel's callback slots and hid-tracking flag. -/
structure State where
  chanAvailable : Bool
  hidAvailable : Bool
  getFilesResult : Option (Descriptors × ImuParams)
  opened : Bool
  descriptors : Option Descriptors
  motionIntrinsics : Option (Int × Int)
  motionExtrinsics : Option Int
  imageInfoEnabled : Bool
  imageInfoSync : Bool
  motionDatasEnabled : Bool
  motionMaxSize : Nat
  streamLeftEnabled : Bool
  streamRightEnabled : Bool
  streamDepthEnabled : Bool
  imuCallbackRegistered : Bool
  imgInfoCallbackRegistered : Bool
  hidTracking : Bool
deriving DecidableEq, Repr

/-- The state of a freshly constructed coordinator before `Init` runs: device
environment as given, everything else off/empty (all feature toggles disabled,
no caches, nothing registered, not tracking, not opened). -/
def blankState (chanAvailable hidAvailable : Bool)
    (getFilesResult : Option (Descriptors × ImuParams)) : State :=
  { chanAvailable := chanAvailable, hidAvailable := hidAvailable,
    getFilesResult := getFilesResult, opened := false, descriptors := none,
    motionIntrinsics := none, motionExtrinsics := none,
    imageInfoEnabled := false, imageInfoSync := false,
    motionDatasEnabled := false, motionMaxSize := 0,
    streamLeftEnabled := false, streamRightEnabled := false,
    streamDepthEnabled := false, imuCallbackRegistered := false,
    imgInfoCallbackRegistered := false, hidTracking := false }

namespace CameraPrivate

/-- `CameraPrivate::ReadDeviceFlash`: returns early if the channel is
unavailable; otherwise allocates a fresh default `Descriptors` (the
`std::make_shared` call happens before the read), then performs the combined
`GetFiles` read — on failure the allocated default record stays cached; on
success the read data is cached and, when the inertial params carry `ok`,
the motion intrinsics/extrinsics caches are populated from them. -/
def ReadDeviceFlash (s : State) : State :=
  if !s.chanAvailable then s
  else
    let s1 := { s with descriptors := some Descriptors.empty }
    match s1.getFilesResult with
    | none => s1
    | some (d, imu) =>
      let s2 := { s1 with descriptors := some d }
      if imu.ok then
        { s2 with motionIntrinsics := some (imu.in_accel, imu.in_gyro),
                  motionExtrinsics := some imu.ex_left_to_imu }
      else s2

/-- `CameraPrivate::Init` as run by the constructor: collaborators start in
the blank state; if the channel reports available, the device flash is read
eagerly. -/
def Init (chanAvailable hidAvailable : Bool)
    (getFilesResult : Option (Descriptors × ImuParams)) : State :=
  let s := blankState chanAvailable hidAvailable getFilesResult
  if s.chanAvailable then ReadDeviceFlash s else s

/-- `CameraPrivate::GetDescriptor`: empty string when the descriptor cache
was never populated, otherwise the switch over the field tag, with the
`default:` branch returning the empty string. Total — never raises. -/
def GetDescriptor (s : State) (desc : Descriptor) : String :=
  match s.descriptors with
  | none => ""
  | some d =>
    match desc with
    | .DEVICE_NAME => d.name
    | .SERIAL_NUMBER => d.serial_number
    | .FIRMWARE_VERSION => d.firmware_version
    | .HARDWARE_VERSION => d.hardware_version
    | .SPEC_VERSION => d.spec_version
    | .LENS_TYPE => d.lens_type
    | .IMU_TYPE => d.imu_type
    | .NOMINAL_BASELINE => toString d.nominal_baseline
    | .unrecognized => ""

/-- `CameraPrivate::GetStreamIntrinsics`, as the pure transform it applies to
the freshly fetched calibration record: per-lens width is the combined width
halved, height unchanged, fx/fy/cx/cy read from row-major offsets 0/4/2/5 of
each lens's own camera matrix, and the loop `for i in 0..4` copying the first
5 distortion coefficients of each lens's own vector. Out-of-range list reads
model the C++ array indexing as `getD` with default 0. -/
def GetStreamIntrinsics (c : CameraCalibration) : StreamIntrinsics :=
  { left :=
      { width := c.InImgWidth / 2, height := c.InImgHeight,
        fx := c.CamMat1.getD 0 0, fy := c.CamMat1.getD 4 0,
        cx := c.CamMat1.getD 2 0, cy := c.CamMat1.getD 5 0,
        coeffs := [c.CamDist1.getD 0 0, c.CamDist1.getD 1 0,
                   c.CamDist1.getD 2 0, c.CamDist1.getD 3 0,
                   c.CamDist1.getD 4 0] },
    right :=
      { width := c.InImgWidth / 2, height := c.InImgHeight,
        fx := c.CamMat2.getD 0 0, fy := c.CamMat2.getD 4 0,
        cx := c.CamMat2.getD 2 0, cy := c.CamMat2.getD 5 0,
        coeffs := [c.CamDist2.getD 0 0, c.CamDist2.getD 1 0,
                   c.CamDist2.getD 2 0, c.CamDist2.getD 3 0,
                   c.CamDist2.getD 4 0] } }

/-- `CameraPrivate::StartDataTracking`: (the commented-out `IsOpened` guard is
absent from the compiled code) return false at once when neither motion datas
nor image info are enabled; otherwise (re-)register the imu callback when
motion datas are enabled and the image-info callback when image info is
enabled; return true when hid tracking is already active; return false when
the hid channel is unavailable; otherwise start hid tracking and return its
result. `Channels::StartHidTracking` is modelled from the spec: it sets the
channel's tracking-active flag and reports success. -/
def StartDataTracking (s : State) : Bool × State × List Event :=
  if !s.motionDatasEnabled && !s.imageInfoEnabled then
    (false, s, [Event.startDataTracking])
  else
    let p1 : State × List Event :=
      if s.motionDatasEnabled then
        ({ s with imuCallbackRegistered := true }, [Event.setImuDataCallback])
      else (s, [])
    let p2 : State × List Event :=
      if p1.1.imageInfoEnabled then
        ({ p1.1 with imgInfoCallbackRegistered := true },
         p1.2 ++ [Event.setImgInfoCallback])
      else p1
    if p2.1.hidTracking then
      (true, p2.1, Event.startDataTracking :: p2.2)
    else if !p2.1.hidAvailable then
      (false, p2.1, Event.startDataTracking :: p2.2)
    else
      (true, { p2.1 with hidTracking := true },
       Event.startDataTracking :: p2.2 ++ [Event.startHidTracking])

/-- `CameraPrivate::StopDataTracking`: stop hid tracking only when the channel
reports tracking active; otherwise a no-op. `Channels::StopHidTracking` is
modelled from the spec: it clears the channel's tracking-active flag. -/
def StopDataTracking (s : State) : State × List Event :=
  if s.hidTracking then
    ({ s with hidTracking := false }, [Event.stopHidTracking])
  else (s, [])

/-- `CameraPrivate::Open`: returns `SUCCESS` at once when already opened;
otherwise invokes the transport open (its outcome is the explicit input `ok`),
returning the generic `ERROR_FAILURE` when it fails, and on success runs
`StartDataTracking` (result ignored), notifies the stream collaborator via
`OnCameraOpen`, and returns `SUCCESS`. The source's trailing
`else return ERROR_CAMERA_OPEN_FAILED` branch is unreachable (the `if (!ok)`
early return precedes `if (ok)`), so it does not appear here. -/
def Open (ok : Bool) (s : State) : ErrorCode × State × List Event :=
  if s.opened then (ErrorCode.SUCCESS, s, [])
  else if !ok then (ErrorCode.ERROR_FAILURE, s, [Event.transportOpen])
  else
    let s1 := { s with opened := true }
    let r := StartDataTracking s1
    (ErrorCode.SUCCESS, r.2.1,
     Event.transportOpen :: r.2.2 ++ [Event.onCameraOpen])

/-- `CameraPrivate::Close`: no-op when not opened; otherwise stop data
tracking, notify the stream collaborator via `OnCameraClose`, then close the
transport (clearing the opened flag), in that order. -/
def Close (s : State) : State × List Event :=
  if !s.opened then (s, [])
  else
    let r := StopDataTracking s
    ({ r.1 with opened := false },
     r.2 ++ [Event.onCameraClose, Event.transportClose])

/-- `CameraPrivate::EnableImageInfo`: `Streams::EnableImageInfo(sync)` —
modelled from the spec: sets the image-info-enabled flag with its sync
sub-mode — followed by `StartDataTracking`. -/
def EnableImageInfo (sync : Bool) (s : State) : State × List Event :=
  let s1 := { s with imageInfoEnabled := true, imageInfoSync := sync }
  let r := StartDataTracking s1
  (r.2.1, r.2.2)

/-- `CameraPrivate::EnableStreamData`: `Streams::EnableStreamData(type)` —
modelled from the spec: sets that stream type's data-enabled flag. No call to
`StartDataTracking` follows. -/
def EnableStreamData (t : ImageType) (s : State) : State × List Event :=
  match t with
  | .IMAGE_LEFT_COLOR => ({ s with streamLeftEnabled := true }, [])
  | .IMAGE_RIGHT_COLOR => ({ s with streamRightEnabled := true }, [])
  | .IMAGE_DEPTH => ({ s with streamDepthEnabled := true }, [])

/-- `CameraPrivate::EnableMotionDatas`: `Motions::EnableMotionDatas(max_size)`
— modelled from the spec: sets the inertial-data-enabled flag and retained
capacity — followed by `StartDataTracking`. -/
def EnableMotionDatas (maxSize : Nat) (s : State) : State × List Event :=
  let s1 := { s with motionDatasEnabled := true, motionMaxSize := maxSize }
  let r := StartDataTracking s1
  (r.2.1, r.2.2)

end CameraPrivate

/-- Public operations whose sequences generate the reachable states:
transport open (with its outcome), close, and the three toggle-enabling
calls. -/
inductive Op where
  | openCam (ok : Bool)
  | closeCam
  | enableImageInfo (sync : Bool)
  | enableMotionDatas (n : Nat)
  | enableStreamData (t : ImageType)
deriving DecidableEq, Repr

/-- State transition of one public operation (events discarded). -/
def applyOp (s : State) : Op → State
  | .openCam ok => (CameraPrivate.Open ok s).2.1
  | .closeCam => (CameraPrivate.Close s).1
  | .enableImageInfo sync => (CameraPrivate.EnableImageInfo sync s).1
  | .enableMotionDatas n => (CameraPrivate.EnableMotionDatas n s).1
  | .enableStreamData t => (CameraPrivate.EnableStreamData t s).1

/-- Run a sequence of public operations from a state. -/
def run (s : State) (ops : List Op) : State :=
  List.foldl applyOp s ops

/-- The spec's tracking invariant (§3): hid tracking is active iff at least
one of {inertial-data enabled, image-info enabled} holds and the side channel
reports itself available for tracking. -/
def trackingInvariant (s : State) : Bool :=
  s.hidTracking ==
    ((s.motionDatasEnabled || s.imageInfoEnabled) && s.hidAvailable)

/-- `n` consecutive calls to `CameraPrivate::Open` with the same transport
outcome, accumulating the collaborator calls they perform. -/
def iterOpen : Nat → Bool → State → State × List Event
  | 0, _, _s => (_s, [])
  | n + 1, ok, s =>
    let r := CameraPrivate.Open ok s
    let rest := iterOpen n ok r.2.1
    (rest.1, r.2.2 ++ rest.2)

/-- `n` consecutive calls to `CameraPrivate::Close`, accumulating the
collaborator calls they perform. -/
def iterClose : Nat → State → State × List Event
  | 0, _s => (_s, [])
  | n + 1, s =>
    let r := CameraPrivate.Close s
    let rest := iterClose n r.1
    (rest.1, r.2 ++ rest.2)

/-- The spec-side field table for `GetDescriptor` (§4.1): which descriptor
field each recognized tag selects; `none` for an unrecognized tag. -/
def recognizedField : Descriptor → Option (Descriptors → String)
  | .DEVICE_NAME => some (fun d => d.name)
  | .SERIAL_NUMBER => some (fun d => d.serial_number)
  | .FIRMWARE_VERSION => some (fun d => d.firmware_version)
  | .HARDWARE_VERSION => some (fun d => d.hardware_version)
  | .SPEC_VERSION => some (fun d => d.spec_version)
  | .LENS_TYPE => some (fun d => d.lens_type)
  | .IMU_TYPE => some (fun d => d.imu_type)
  | .NOMINAL_BASELINE => some (fun d => toString d.nominal_baseline)
  | .unrecognized => none

lemma startDataTracking_state (s : State) :
    (CameraPrivate.StartDataTracking s).2.1 =
      { s with
        imuCallbackRegistered :=
          s.imuCallbackRegistered || s.motionDatasEnabled,
        imgInfoCallbackRegistered :=
          s.imgInfoCallbackRegistered || s.imageInfoEnabled,
        hidTracking := s.hidTracking ||
          ((s.motionDatasEnabled || s.imageInfoEnabled) && s.hidAvailable) } := by
  obtain ⟨ca, ha, gf, opn, de, mi, me, ie, isy, md, mm, sl, sr, sd, icr, gcr, ht⟩ := s
  cases md <;> cases ie <;> cases ht <;> cases ha <;> cases icr <;> cases gcr <;>
    simp [CameraPrivate.StartDataTracking]

lemma startDataTracking_fst (s : State) :
    (CameraPrivate.StartDataTracking s).1 =
      ((s.motionDatasEnabled || s.imageInfoEnabled) &&
        (s.hidTracking || s.hidAvailable)) := by
  obtain ⟨ca, ha, gf, opn, de, mi, me, ie, isy, md, mm, sl, sr, sd, icr, gcr, ht⟩ := s
  cases md <;> cases ie <;> cases ht <;> cases ha <;>
    simp [CameraPrivate.StartDataTracking]

lemma startDataTracking_mem_trace (s : State) :
    Event.startDataTracking ∈ (CameraPrivate.StartDataTracking s).2.2 := by
  obtain ⟨ca, ha, gf, opn, de, mi, me, ie, isy, md, mm, sl, sr, sd, icr, gcr, ht⟩ := s
  cases md <;> cases ie <;> cases ht <;> cases ha <;>
    simp [CameraPrivate.StartDataTracking]

/-- C1: `StartDataTracking` follows the six-step algorithm: (1) with both
features disabled it returns false with no side-channel interaction and no
state change; (2) with inertial data enabled the inertial callback is
(re-)registered; (3) with image info enabled the image-info callback is
(re-)registered; (4) with tracking already active it returns true without
issuing a start command; (5) with tracking inactive and the hid channel
unavailable it returns false and tracking stays inactive; (6) otherwise it
starts tracking and returns that result (true). -/
theorem C1_startDataTracking_algorithm (s : State) :
    ((s.motionDatasEnabled = false ∧ s.imageInfoEnabled = false) →
      CameraPrivate.StartDataTracking s = (false, s, [Event.startDataTracking])) ∧
    (s.motionDatasEnabled = true →
      (CameraPrivate.StartDataTracking s).2.1.imuCallbackRegistered = true ∧
      Event.setImuDataCallback ∈ (CameraPrivate.StartDataTracking s).2.2) ∧
    (s.imageInfoEnabled = true →
      (CameraPrivate.StartDataTracking s).2.1.imgInfoCallbackRegistered = true ∧
      Event.setImgInfoCallback ∈ (CameraPrivate.StartDataTracking s).2.2) ∧
    ((s.motionDatasEnabled = true ∨ s.imageInfoEnabled = true) →
      s.hidTracking = true →
      (CameraPrivate.StartDataTracking s).1 = true ∧
      Event.startHidTracking ∉ (CameraPrivate.StartDataTracking s).2.2) ∧
    ((s.motionDatasEnabled = true ∨ s.imageInfoEnabled = true) →
      s.hidTracking = false → s.hidAvailable = false →
      (CameraPrivate.StartDataTracking s).1 = false ∧
      (CameraPrivate.StartDataTracking s).2.1.hidTracking = false) ∧
    ((s.motionDatasEnabled = true ∨ s.imageInfoEnabled = true) →
      s.hidTracking = false → s.hidAvailable = true →
      (CameraPrivate.StartDataTracking s).1 = true ∧
      (CameraPrivate.StartDataTracking s).2.1.hidTracking = true ∧
      Event.startHidTracking ∈ (CameraPrivate.StartDataTracking s).2.2) := by
  obtain ⟨ca, ha, gf, opn, de, mi, me, ie, isy, md, mm, sl, sr, sd, icr, gcr, ht⟩ := s
  cases md <;> cases ie <;> cases ht <;> cases ha <;>
    simp [CameraPrivate.StartDataTracking]

/-- C1 witness: concrete evaluation of the theorem with inertial data
enabled, tracking inactive, hid channel available. -/
theorem C1_startDataTracking_algorithm_witness :
    (CameraPrivate.StartDataTracking
      { blankState true true none with motionDatasEnabled := true }).1 = true ∧
    (CameraPrivate.StartDataTracking
      { blankState true true none with motionDatasEnabled := true
        }).2.1.hidTracking = true := by
  have h := (C1_startDataTracking_algorithm
      { blankState true true none with motionDatasEnabled := true
        }).2.2.2.2.2 (Or.inl rfl) rfl rfl
  exact ⟨h.1, h.2.1⟩

lemma trackingInvariant_applyOp (s : State) (o : Op) (ho : o ≠ Op.closeCam)
    (h : trackingInvariant s = true) :
    trackingInvariant (applyOp s o) = true := by
  obtain ⟨ca, ha, gf, opn, de, mi, me, ie, isy, md, mm, sl, sr, sd, icr, gcr, ht⟩ := s
  cases o with
  | closeCam => exact absurd rfl ho
  | openCam ok =>
      cases opn <;> cases ok <;> cases md <;> cases ie <;> cases ha <;> cases ht <;>
        simp_all [applyOp, CameraPrivate.Open, CameraPrivate.StartDataTracking,
          trackingInvariant]
  | enableImageInfo sync =>
      cases md <;> cases ie <;> cases ha <;> cases ht <;>
        simp_all [applyOp, CameraPrivate.EnableImageInfo,
          CameraPrivate.StartDataTracking, trackingInvariant]
  | enableMotionDatas n =>
      cases md <;> cases ie <;> cases ha <;> cases ht <;>
        simp_all [applyOp, CameraPrivate.EnableMotionDatas,
          CameraPrivate.StartDataTracking, trackingInvariant]
  | enableStreamData t =>
      cases t <;>
        simp_all [applyOp, CameraPrivate.EnableStreamData, trackingInvariant]

lemma trackingInvariant_run (ops : List Op) :
    ∀ s : State, (∀ o ∈ ops, o ≠ Op.closeCam) → trackingInvariant s = true →
    trackingInvariant (run s ops) = true := by
  induction ops with
  | nil => exact fun s _ h => h
  | cons o rest ih =>
      intro s hno h
      have h1 := trackingInvariant_applyOp s o (hno o (List.mem_cons_self o rest)) h
      exact ih (applyOp s o) (fun x hx => hno x (List.mem_cons_of_mem o hx)) h1

lemma trackingInvariant_init (ca ha : Bool)
    (gf : Option (Descriptors × ImuParams)) :
    trackingInvariant (CameraPrivate.Init ca ha gf) = true := by
  cases gf with
  | none =>
      cases ca <;>
        simp [CameraPrivate.Init, CameraPrivate.ReadDeviceFlash, blankState,
          trackingInvariant]
  | some p =>
      obtain ⟨d, imu⟩ := p
      cases ca <;> cases hok : imu.ok <;>
        simp [CameraPrivate.Init, CameraPrivate.ReadDeviceFlash, blankState,
          trackingInvariant, hok]

/-- C2 counterexample: with the hid channel available, the state reached by
construction, `EnableImageInfo`, successful `Open`, then `Close` violates the
claimed invariant — image info is still enabled and the channel still
available, but `Close` stopped tracking. -/
theorem C2_tracking_invariant_cex :
    trackingInvariant (run (CameraPrivate.Init false true none)
      [Op.enableImageInfo true, Op.openCam true, Op.closeCam]) = false ∧
    (run (CameraPrivate.Init false true none)
      [Op.enableImageInfo true, Op.openCam true,
       Op.closeCam]).imageInfoEnabled = true ∧
    (run (CameraPrivate.Init false true none)
      [Op.enableImageInfo true, Op.openCam true,
       Op.closeCam]).hidAvailable = true ∧
    (run (CameraPrivate.Init false true none)
      [Op.enableImageInfo true, Op.openCam true,
       Op.closeCam]).hidTracking = false := by
  decide

/-- C2 (amended): the tracking invariant — tracking active iff some feature
of {inertial data, image info} is enabled and the hid channel is available —
holds in every state reachable from construction by sequences of Open,
EnableImageInfo, EnableMotionDatas, EnableStreamData that contain no Close;
a Close while opened stops tracking without clearing the toggles, breaking
the biconditional. -/
theorem C2_tracking_invariant_no_close (ca ha : Bool)
    (gf : Option (Descriptors × ImuParams)) (ops : List Op)
    (hops : ∀ o ∈ ops, o ≠ Op.closeCam) :
    trackingInvariant (run (CameraPrivate.Init ca ha gf) ops) = true :=
  trackingInvariant_run ops (CameraPrivate.Init ca ha gf) hops
    (trackingInvariant_init ca ha gf)

/-- C2 witness: concrete evaluation of the amended invariant theorem on the
sequence enable-image-info, successful open. -/
theorem C2_tracking_invariant_no_close_witness :
    trackingInvariant (run (CameraPrivate.Init false true none)
      [Op.enableImageInfo true, Op.openCam true]) = true :=
  C2_tracking_invariant_no_close false true none
    [Op.enableImageInfo true, Op.openCam true] (by decide)

/-- C3 counterexample: `EnableStreamData` performs no collaborator call at
all beyond setting its flag — in particular it never enters
`StartDataTracking` (its event trace is empty), refuting the claim that every
toggle-enabling call re-evaluates tracking activation. -/
theorem C3_enableStreamData_cex :
    (CameraPrivate.EnableStreamData ImageType.IMAGE_LEFT_COLOR
        (blankState true true none)).2 = [] ∧
    (CameraPrivate.EnableStreamData ImageType.IMAGE_LEFT_COLOR
        (blankState true true none)).1 =
      { blankState true true none with streamLeftEnabled := true } := by
  decide

/-- C3 (amended): `EnableImageInfo` and `EnableMotionDatas` invoke
`StartDataTracking` after setting their feature flag (each equals the
composition of the flag update with `StartDataTracking`, whose entry marker
appears in the trace); `EnableStreamData` sets its per-stream flag without
invoking `StartDataTracking`. -/
theorem C3_enable_calls_reevaluate (s : State) (sync : Bool) (n : Nat)
    (t : ImageType) :
    CameraPrivate.EnableImageInfo sync s =
      ((CameraPrivate.StartDataTracking
          { s with imageInfoEnabled := true, imageInfoSync := sync }).2.1,
       (CameraPrivate.StartDataTracking
          { s with imageInfoEnabled := true, imageInfoSync := sync }).2.2) ∧
    Event.startDataTracking ∈ (CameraPrivate.EnableImageInfo sync s).2 ∧
    CameraPrivate.EnableMotionDatas n s =
      ((CameraPrivate.StartDataTracking
          { s with motionDatasEnabled := true, motionMaxSize := n }).2.1,
       (CameraPrivate.StartDataTracking
          { s with motionDatasEnabled := true, motionMaxSize := n }).2.2) ∧
    Event.startDataTracking ∈ (CameraPrivate.EnableMotionDatas n s).2 ∧
    (CameraPrivate.EnableStreamData t s).2 = [] := by
  refine ⟨rfl, startDataTracking_mem_trace _, rfl,
    startDataTracking_mem_trace _, ?_⟩
  cases t <;> rfl

/-- C4: for a raw calibration record with combined width W and height H,
row-major 3x3 camera matrices and at-least-5-element distortion vectors,
`GetStreamIntrinsics` yields per lens width = W/2, height = H, fx/fy/cx/cy
from offsets 0/4/2/5 of that lens's own matrix, and the first 5 distortion
coefficients of that lens's own vector copied verbatim. -/
theorem C4_getStreamIntrinsics_fields (c : CameraCalibration)
    (_h1 : c.CamMat1.length = 9) (_h2 : c.CamMat2.length = 9)
    (_h3 : 5 ≤ c.CamDist1.length) (_h4 : 5 ≤ c.CamDist2.length) :
    (CameraPrivate.GetStreamIntrinsics c).left.width = c.InImgWidth / 2 ∧
    (CameraPrivate.GetStreamIntrinsics c).left.height = c.InImgHeight ∧
    (CameraPrivate.GetStreamIntrinsics c).left.fx = c.CamMat1.getD 0 0 ∧
    (CameraPrivate.GetStreamIntrinsics c).left.fy = c.CamMat1.getD 4 0 ∧
    (CameraPrivate.GetStreamIntrinsics c).left.cx = c.CamMat1.getD 2 0 ∧
    (CameraPrivate.GetStreamIntrinsics c).left.cy = c.CamMat1.getD 5 0 ∧
    (∀ i, i < 5 →
      (CameraPrivate.GetStreamIntrinsics c).left.coeffs.getD i 0 =
        c.CamDist1.getD i 0) ∧
    (CameraPrivate.GetStreamIntrinsics c).right.width = c.InImgWidth / 2 ∧
    (CameraPrivate.GetStreamIntrinsics c).right.height = c.InImgHeight ∧
    (CameraPrivate.GetStreamIntrinsics c).right.fx = c.CamMat2.getD 0 0 ∧
    (CameraPrivate.GetStreamIntrinsics c).right.fy = c.CamMat2.getD 4 0 ∧
    (CameraPrivate.GetStreamIntrinsics c).right.cx = c.CamMat2.getD 2 0 ∧
    (CameraPrivate.GetStreamIntrinsics c).right.cy = c.CamMat2.getD 5 0 ∧
    ∀ i, i < 5 →
      (CameraPrivate.GetStreamIntrinsics c).right.coeffs.getD i 0 =
        c.CamDist2.getD i 0 := by
  refine ⟨rfl, rfl, rfl, rfl, rfl, rfl, ?_, rfl, rfl, rfl, rfl, rfl, rfl, ?_⟩ <;>
    intro i hi <;> interval_cases i <;> rfl

/-- C4 witness: concrete evaluation of the intrinsics-derivation theorem on a
calibration record with camera matrix `[fx,0,cx,0,fy,cy,0,0,1]` per lens. -/
theorem C4_getStreamIntrinsics_fields_witness :
    (CameraPrivate.GetStreamIntrinsics
      { InImgWidth := 1280, InImgHeight := 480,
        CamMat1 := [700, 0, 310, 0, 710, 230, 0, 0, 1],
        CamDist1 := [1, 2, 3, 4, 5, 6, 7, 8],
        CamMat2 := [720, 0, 330, 0, 730, 240, 0, 0, 1],
        CamDist2 := [9, 10, 11, 12, 13, 14, 15, 16] }).left.width = 640 ∧
    (CameraPrivate.GetStreamIntrinsics
      { InImgWidth := 1280, InImgHeight := 480,
        CamMat1 := [700, 0, 310, 0, 710, 230, 0, 0, 1],
        CamDist1 := [1, 2, 3, 4, 5, 6, 7, 8],
        CamMat2 := [720, 0, 330, 0, 730, 240, 0, 0, 1],
        CamDist2 := [9, 10, 11, 12, 13, 14, 15, 16] }).right.fy = 730 := by
  have h := C4_getStreamIntrinsics_fields
    { InImgWidth := 1280, InImgHeight := 480,
      CamMat1 := [700, 0, 310, 0, 710, 230, 0, 0, 1],
      CamDist1 := [1, 2, 3, 4, 5, 6, 7, 8],
      CamMat2 := [720, 0, 330, 0, 730, 240, 0, 0, 1],
      CamDist2 := [9, 10, 11, 12, 13, 14, 15, 16] }
    (by decide) (by decide) (by decide) (by decide)
  exact ⟨h.1, h.2.2.2.2.2.2.2.2.2.2.1⟩

/-- C5: `Open` on an already-opened device returns `SUCCESS` with the state
unchanged and no collaborator call (in particular no transport open), and any
number of repeated `Open` calls in that situation leaves the state unchanged
with an empty accumulated call trace. -/
theorem C5_open_already_opened (s : State) (ok : Bool) (n : Nat)
    (h : s.opened = true) :
    CameraPrivate.Open ok s = (ErrorCode.SUCCESS, s, []) ∧
    iterOpen n ok s = (s, []) := by
  have h1 : CameraPrivate.Open ok s = (ErrorCode.SUCCESS, s, []) := by
    simp [CameraPrivate.Open, h]
  refine ⟨h1, ?_⟩
  induction n with
  | zero => rfl
  | succ m ih => simp [iterOpen, h1, ih]

/-- C5 witness: concrete evaluation of the idempotent-open theorem on an
opened state, with three repeated calls. -/
theorem C5_open_already_opened_witness :
    CameraPrivate.Open true { blankState true true none with opened := true } =
      (ErrorCode.SUCCESS,
       { blankState true true none with opened := true }, []) ∧
    iterOpen 3 true { blankState true true none with opened := true } =
      ({ blankState true true none with opened := true }, []) :=
  C5_open_already_opened { blankState true true none with opened := true }
    true 3 rfl

/-- C6 (code-bug evidence): when the device is not opened and the transport
open fails, `Open` performs exactly one transport-open attempt (never a
retry) but returns the generic `ERROR_FAILURE`; the distinguishable
`ERROR_CAMERA_OPEN_FAILED` code is never returned on any input — the source's
`else return ERROR_CAMERA_OPEN_FAILED` branch is unreachable. -/
theorem C6_open_failure_returns_generic (s : State) (ok : Bool)
    (h : s.opened = false) :
    CameraPrivate.Open false s =
      (ErrorCode.ERROR_FAILURE, s, [Event.transportOpen]) ∧
    (CameraPrivate.Open ok s).1 ≠ ErrorCode.ERROR_CAMERA_OPEN_FAILED := by
  constructor
  · simp [CameraPrivate.Open, h]
  · cases hop : s.opened <;> cases ok <;>
      simp [CameraPrivate.Open, hop]

/-- C6 witness: concrete evaluation of the open-failure theorem on the blank
state with a failing transport open. -/
theorem C6_open_failure_returns_generic_witness :
    CameraPrivate.Open false (blankState true true none) =
      (ErrorCode.ERROR_FAILURE, blankState true true none,
       [Event.transportOpen]) ∧
    (CameraPrivate.Open false (blankState true true none)).1 ≠
      ErrorCode.ERROR_CAMERA_OPEN_FAILED :=
  C6_open_failure_returns_generic (blankState true true none) false rfl

/-- C7 counterexample: with the side channel available but the combined read
reporting failure, construction leaves the descriptor cache populated with
the pre-allocated default record (allocation precedes the read), not absent —
and `GetDescriptor` then takes the populated path, e.g. returning the string
rendering "0" of the default nominal baseline rather than the empty
sentinel. -/
theorem C7_descriptor_cache_cex :
    (CameraPrivate.Init true true none).descriptors =
      some Descriptors.empty ∧
    CameraPrivate.GetDescriptor (CameraPrivate.Init true true none)
      Descriptor.NOMINAL_BASELINE = "0" := by
  decide

/-- C7 (amended): after construction the descriptor cache is absent exactly
when the side channel is unavailable; when the channel is available the cache
is always populated — with the read data on success and with the
pre-allocated default record when the combined read reported failure — and
only in the unavailable case does `GetDescriptor` take its never-populated
path returning the empty sentinel for every tag. -/
theorem C7_descriptor_cache_population (ca ha : Bool)
    (gf : Option (Descriptors × ImuParams)) :
    (ca = false → (CameraPrivate.Init ca ha gf).descriptors = none ∧
      ∀ d : Descriptor, CameraPrivate.GetDescriptor
        (CameraPrivate.Init ca ha gf) d = "") ∧
    (ca = true → (CameraPrivate.Init ca ha gf).descriptors =
      some (match gf with
            | some (d, _) => d
            | none => Descriptors.empty)) := by
  constructor
  · intro h
    subst h
    refine ⟨rfl, ?_⟩
    intro d
    rfl
  · intro h
    subst h
    cases gf with
    | none => rfl
    | some p =>
        obtain ⟨d, imu⟩ := p
        cases hok : imu.ok <;>
          simp [CameraPrivate.Init, CameraPrivate.ReadDeviceFlash,
            blankState, hok]

/-- C7 witness: concrete evaluations of the amended cache-population theorem
with the channel unavailable, and with it available under a failed read. -/
theorem C7_descriptor_cache_population_witness :
    (CameraPrivate.Init false true none).descriptors = none ∧
    (CameraPrivate.Init true true none).descriptors =
      some Descriptors.empty := by
  refine ⟨((C7_descriptor_cache_population false true none).1 rfl).1, ?_⟩
  exact (C7_descriptor_cache_population true true none).2 rfl

/-- C8: `GetDescriptor` is a total lookup-with-default: with the cache
unpopulated it returns the empty string for every tag; with the cache
populated it returns the selected field's string value for each recognized
tag and the empty string for an unrecognized tag. -/
theorem C8_getDescriptor_lookup_with_default (s : State) (ds : Descriptors)
    (d : Descriptor) :
    (s.descriptors = none → CameraPrivate.GetDescriptor s d = "") ∧
    (s.descriptors = some ds →
      CameraPrivate.GetDescriptor s d =
        (match recognizedField d with
         | some f => f ds
         | none => "")) := by
  constructor
  · intro h
    simp [CameraPrivate.GetDescriptor, h]
  · intro h
    cases d <;> simp [CameraPrivate.GetDescriptor, h, recognizedField]

/-- C8 witness: concrete evaluation of the lookup theorem on a populated
cache, for a recognized and for an unrecognized tag. -/
theorem C8_getDescriptor_lookup_with_default_witness :
    CameraPrivate.GetDescriptor
      { blankState true true none with
        descriptors := some { Descriptors.empty with name := "MYNT" } }
      Descriptor.DEVICE_NAME = "MYNT" ∧
    CameraPrivate.GetDescriptor
      { blankState true true none with
        descriptors := some { Descriptors.empty with name := "MYNT" } }
      Descriptor.unrecognized = "" := by
  constructor
  · exact (C8_getDescriptor_lookup_with_default
      { blankState true true none with
        descriptors := some { Descriptors.empty with name := "MYNT" } }
      { Descriptors.empty with name := "MYNT" }
      Descriptor.DEVICE_NAME).2 rfl
  · exact (C8_getDescriptor_lookup_with_default
      { blankState true true none with
        descriptors := some { Descriptors.empty with name := "MYNT" } }
      { Descriptors.empty with name := "MYNT" }
      Descriptor.unrecognized).2 rfl

lemma close_not_opened (s : State) (h : s.opened = false) :
    CameraPrivate.Close s = (s, []) := by
  simp [CameraPrivate.Close, h]

lemma iterClose_not_opened (n : Nat) (s : State) (h : s.opened = false) :
    iterClose n s = (s, []) := by
  induction n with
  | zero => rfl
  | succ m ih => simp [iterClose, close_not_opened s h, ih]

/-- C9: `Close` on a non-opened device is a no-op (no collaborator call at
all — in particular neither transport-close nor stop-tracking — for any
number of repeated calls); on an opened device it stops tracking when active,
notifies the stream collaborator of deactivation, then closes the transport,
in that order, and an immediately repeated `Close` is then a no-op. -/
theorem C9_close_behaviour (s : State) (n : Nat) :
    (s.opened = false →
      CameraPrivate.Close s = (s, []) ∧ iterClose n s = (s, [])) ∧
    (s.opened = true →
      CameraPrivate.Close s =
        ({ s with opened := false, hidTracking := false },
         (if s.hidTracking then [Event.stopHidTracking] else []) ++
           [Event.onCameraClose, Event.transportClose]) ∧
      CameraPrivate.Close (CameraPrivate.Close s).1 =
        ((CameraPrivate.Close s).1, [])) := by
  constructor
  · intro h
    exact ⟨close_not_opened s h, iterClose_not_opened n s h⟩
  · intro h
    have hc : CameraPrivate.Close s =
        ({ s with opened := false, hidTracking := false },
         (if s.hidTracking then [Event.stopHidTracking] else []) ++
           [Event.onCameraClose, Event.transportClose]) := by
      obtain ⟨ca, ha, gf, opn, de, mi, me, ie, isy, md, mm, sl, sr, sd,
        icr, gcr, ht⟩ := s
      cases ht <;>
        simp_all [CameraPrivate.Close, CameraPrivate.StopDataTracking]
    refine ⟨hc, ?_⟩
    rw [hc]
    exact close_not_opened _ rfl

/-- C9 witness: concrete evaluation of the close theorem on an opened,
actively tracking state (events in order: stop tracking, camera-close
notification, transport close) and on a closed state with three repeated
calls. -/
theorem C9_close_behaviour_witness :
    CameraPrivate.Close
      { blankState true true none with opened := true, hidTracking := true } =
      (blankState true true none,
       [Event.stopHidTracking, Event.onCameraClose, Event.transportClose]) ∧
    iterClose 3 (blankState true true none) = (blankState true true none, []) := by
  constructor
  · have h := (C9_close_behaviour
      { blankState true true none with opened := true, hidTracking := true }
      3).2 rfl
    rw [h.1]
    decide
  · exact ((C9_close_behaviour (blankState true true none) 3).1 rfl).2

/-- C10: `StartDataTracking` never consults the open state — its result,
trace, and effect on every other state component are identical for any value
of the opened flag — and enabling inertial data or image info (in particular
before any open) immediately registers the corresponding callback and starts
side-channel tracking when the hid channel is available and tracking is not
already active. -/
theorem C10_startDataTracking_ignores_open_state (s : State)
    (b sync : Bool) (n : Nat) :
    CameraPrivate.StartDataTracking { s with opened := b } =
      ((CameraPrivate.StartDataTracking s).1,
       { (CameraPrivate.StartDataTracking s).2.1 with opened := b },
       (CameraPrivate.StartDataTracking s).2.2) ∧
    (s.hidTracking = false → s.hidAvailable = true →
      (CameraPrivate.EnableMotionDatas n s).1.imuCallbackRegistered = true ∧
      (CameraPrivate.EnableMotionDatas n s).1.hidTracking = true ∧
      (CameraPrivate.EnableImageInfo sync s).1.imgInfoCallbackRegistered
        = true ∧
      (CameraPrivate.EnableImageInfo sync s).1.hidTracking = true) := by
  obtain ⟨ca, ha, gf, opn, de, mi, me, ie, isy, md, mm, sl, sr, sd,
    icr, gcr, ht⟩ := s
  constructor
  · cases md <;> cases ie <;> cases ht <;> cases ha <;>
      simp [CameraPrivate.StartDataTracking]
  · intro h1 h2
    subst h1
    subst h2
    cases md <;> cases ie <;>
      simp [CameraPrivate.EnableMotionDatas, CameraPrivate.EnableImageInfo,
        CameraPrivate.StartDataTracking]

/-- C10 witness: concrete evaluation — enabling inertial data on the freshly
constructed, never-opened state with the hid channel available registers the
inertial callback and activates tracking. -/
theorem C10_startDataTracking_ignores_open_state_witness :
    (CameraPrivate.EnableMotionDatas 100
      (blankState true true none)).1.imuCallbackRegistered = true ∧
    (CameraPrivate.EnableMotionDatas 100
      (blankState true true none)).1.hidTracking = true := by
  have h := (C10_startDataTracking_ignores_open_state
    (blankState true true none) false false 100).2 rfl rfl
  exact ⟨h.1, h.2.1⟩
